import Mathlib

/-!
Shallow embedding of `src/index.tsx` (react-native-slider): the gesture-to-value
mapping, geometry store, touch-target geometry and gesture handlers of the
`Slider` component. Numbers are modelled as exact rationals (`ℚ`); JavaScript
`Math.max`/`Math.min`/`Math.round` are embedded with their JS semantics
(`Math.round x = ⌊x + 1/2⌋`, half rounds toward +∞). JS division by a nonzero
rational coincides with `ℚ` division; every theorem whose inputs could make a
divisor zero either carries a nonzero hypothesis or uses inputs where every
divisor is nonzero. For the zero-divisor states the ℚ embedding cannot
express, `_getValue` is embedded a second time over `JsNum` — finite rationals
plus `NaN`/`±Infinity` with IEEE-754/JS special-value propagation — and the
bridge lemma `getValueJs_eq_finite` proves the two embeddings agree whenever
the track-length divisor is nonzero.
-/

namespace Slider

/-- JS `Math.round`: rounds half toward +∞, i.e. `⌊x + 1/2⌋`. -/
def jsRound (x : ℚ) : ℤ := ⌊x + 1/2⌋

/-- JS `x || y` on numbers (used at `props.value || 0`): `y` when `x` is falsy
(zero; NaN is out of the rational model), else `x`. -/
def jsOr (x y : ℚ) : ℚ := if x = 0 then y else x

/-- `class Rect` (src lines 26-46). -/
structure Rect where
  x : ℚ
  y : ℚ
  width : ℚ
  height : ℚ
deriving DecidableEq

/-- `Rect.containsPoint` (src lines 38-45): inclusive on all four edges. -/
def Rect.containsPoint (r : Rect) (x y : ℚ) : Bool :=
  decide (r.x ≤ x) && decide (r.y ≤ y) &&
  decide (x ≤ r.x + r.width) && decide (y ≤ r.y + r.height)

/-- `interface Size` (src lines 184-187). -/
structure Size where
  width : ℚ
  height : ℚ
deriving DecidableEq

/-- The props the embedded core reads (src `SliderProps`, lines 60-182;
rendering-only props omitted). -/
structure SliderProps where
  value : ℚ
  disabled : Bool
  minimumValue : ℚ
  maximumValue : ℚ
  step : ℚ
  thumbTouchSize : Size
deriving DecidableEq

/-- `interface SliderState` (src lines 201-207). The `value : Animated.Value`
member is modelled by the `animatedValue` field of `SliderModel` below. -/
structure SliderState where
  containerSize : Size
  trackSize : Size
  thumbSize : Size
  allMeasured : Bool
deriving DecidableEq

/-- One `Slider` component instance: props, React state, the private mutable
fields `_previousLeft`, `_containerSize`, `_trackSize`, `_thumbSize`,
`currentValue` (src lines 345-355), the current reading of the
`Animated.Value` in `state.value`, and the ambient `I18nManager.isRTL` flag. -/
structure SliderModel where
  props : SliderProps
  state : SliderState
  previousLeft : ℚ
  containerSizeF : Option Size
  trackSizeF : Option Size
  thumbSizeF : Option Size
  currentValue : ℚ
  animatedValue : ℚ
  isRTL : Bool
deriving DecidableEq

/-- The constructor (src lines 357-380): React state starts with zero sizes and
`allMeasured: false`; the animated value is created at `props.value || 0`;
`_previousLeft = 0`; `currentValue = 0`. The listener added on line 377 has not
fired yet, so `currentValue` stays `0` until the first notification. -/
def construct (props : SliderProps) (isRTL : Bool) : SliderModel :=
  { props := props
    state := { containerSize := ⟨0, 0⟩, trackSize := ⟨0, 0⟩,
               thumbSize := ⟨0, 0⟩, allMeasured := false }
    previousLeft := 0
    containerSizeF := none
    trackSizeF := none
    thumbSizeF := none
    currentValue := 0
    animatedValue := jsOr props.value 0
    isRTL := isRTL }

/-- `_getRatio` (src line 590). -/
def _getRatio (s : SliderModel) (value : ℚ) : ℚ :=
  (value - s.props.minimumValue) / (s.props.maximumValue - s.props.minimumValue)

/-- `_getThumbLeft` (src lines 592-598). -/
def _getThumbLeft (s : SliderModel) (value : ℚ) : ℚ :=
  let nonRtlRatio := _getRatio s value
  let ratio := if s.isRTL then 1 - nonRtlRatio else nonRtlRatio
  ratio * (s.state.containerSize.width - s.state.thumbSize.width)

/-- `_getValue` (src lines 600-632). `gestureState.dx` is the cumulative drag
delta; `if (step)` is JS truthiness on a number, i.e. `step ≠ 0`. -/
def _getValue (s : SliderModel) (dx : ℚ) : ℚ :=
  let length := s.state.containerSize.width - s.state.thumbSize.width
  let thumbLeft := s.previousLeft + dx
  let nonRtlRatio := thumbLeft / length
  let ratio := if s.isRTL then 1 - nonRtlRatio else nonRtlRatio
  if s.props.step ≠ 0 then
    max s.props.minimumValue
      (min s.props.maximumValue
        (s.props.minimumValue +
          (jsRound (ratio * (s.props.maximumValue - s.props.minimumValue) /
            s.props.step) : ℚ) * s.props.step))
  else
    max s.props.minimumValue
      (min s.props.maximumValue
        (ratio * (s.props.maximumValue - s.props.minimumValue) +
          s.props.minimumValue))

/-- `_getCurrentValue` (src line 634): reads the listener-maintained field. -/
def _getCurrentValue (s : SliderModel) : ℚ := s.currentValue

/-- JS double values reachable in `_getValue`: an exact finite rational, a
signed infinity, or NaN. Finite arithmetic is taken exact (every input of the
theorems below is exactly representable); the special-value propagation of the
operations follows IEEE-754 / JS semantics, with signed zeros collapsed to
`0`. -/
inductive JsNum where
  | finite (q : ℚ)
  | posInf
  | negInf
  | nan
deriving DecidableEq

namespace JsNum

/-- JS `+`: NaN propagates; `Infinity + (-Infinity)` is NaN. -/
def add : JsNum → JsNum → JsNum
  | nan, _ => nan
  | _, nan => nan
  | posInf, negInf => nan
  | negInf, posInf => nan
  | posInf, _ => posInf
  | _, posInf => posInf
  | negInf, _ => negInf
  | _, negInf => negInf
  | finite a, finite b => finite (a + b)

/-- JS `-`: NaN propagates; `Infinity - Infinity` is NaN. -/
def sub : JsNum → JsNum → JsNum
  | nan, _ => nan
  | _, nan => nan
  | posInf, posInf => nan
  | negInf, negInf => nan
  | posInf, _ => posInf
  | negInf, _ => negInf
  | _, posInf => negInf
  | _, negInf => posInf
  | finite a, finite b => finite (a - b)

/-- JS `*`: NaN propagates; `Infinity * 0` is NaN; otherwise infinities keep
the sign rule. -/
def mul : JsNum → JsNum → JsNum
  | nan, _ => nan
  | _, nan => nan
  | posInf, posInf => posInf
  | posInf, negInf => negInf
  | negInf, posInf => negInf
  | negInf, negInf => posInf
  | posInf, finite b => if b = 0 then nan else if 0 < b then posInf else negInf
  | finite a, posInf => if a = 0 then nan else if 0 < a then posInf else negInf
  | negInf, finite b => if b = 0 then nan else if 0 < b then negInf else posInf
  | finite a, negInf => if a = 0 then nan else if 0 < a then negInf else posInf
  | finite a, finite b => finite (a * b)

/-- JS `/`: NaN propagates; `Infinity / Infinity` is NaN; `0 / 0` is NaN;
`x / 0` for `x ≠ 0` is a signed infinity (the `0` divisor here is `+0`);
finite over infinity is `0`. -/
def div : JsNum → JsNum → JsNum
  | nan, _ => nan
  | _, nan => nan
  | posInf, posInf => nan
  | posInf, negInf => nan
  | negInf, posInf => nan
  | negInf, negInf => nan
  | posInf, finite b => if 0 ≤ b then posInf else negInf
  | negInf, finite b => if 0 ≤ b then negInf else posInf
  | finite _, posInf => finite 0
  | finite _, negInf => finite 0
  | finite a, finite b =>
      if b = 0 then (if a = 0 then nan else if 0 < a then posInf else negInf)
      else finite (a / b)

/-- JS `Math.min`: NaN if either argument is NaN. -/
def min : JsNum → JsNum → JsNum
  | nan, _ => nan
  | _, nan => nan
  | negInf, _ => negInf
  | _, negInf => negInf
  | posInf, b => b
  | a, posInf => a
  | finite a, finite b => finite (Min.min a b)

/-- JS `Math.max`: NaN if either argument is NaN. -/
def max : JsNum → JsNum → JsNum
  | nan, _ => nan
  | _, nan => nan
  | posInf, _ => posInf
  | _, posInf => posInf
  | negInf, b => b
  | a, negInf => a
  | finite a, finite b => finite (Max.max a b)

/-- JS `Math.round`: NaN and infinities pass through; finite values round
half toward +∞. -/
def round : JsNum → JsNum
  | nan => nan
  | posInf => posInf
  | negInf => negInf
  | finite q => finite (jsRound q : ℚ)

end JsNum

/-- `_getValue` (src lines 600-632) embedded a second time, over `JsNum`, to
track the NaN/Infinity values JS division produces when the track length
`containerSize.width - thumbSize.width` is zero — a state the ℚ embedding
cannot express. Operation for operation identical to `_getValue`; the bridge
lemma `getValueJs_eq_finite` below proves both embeddings agree whenever the
track length is nonzero. -/
def _getValueJs (s : SliderModel) (dx : ℚ) : JsNum :=
  let length := JsNum.sub (JsNum.finite s.state.containerSize.width)
    (JsNum.finite s.state.thumbSize.width)
  let thumbLeft := JsNum.add (JsNum.finite s.previousLeft) (JsNum.finite dx)
  let nonRtlRatio := JsNum.div thumbLeft length
  let ratio := if s.isRTL then JsNum.sub (JsNum.finite 1) nonRtlRatio
    else nonRtlRatio
  if s.props.step ≠ 0 then
    JsNum.max (JsNum.finite s.props.minimumValue)
      (JsNum.min (JsNum.finite s.props.maximumValue)
        (JsNum.add (JsNum.finite s.props.minimumValue)
          (JsNum.mul
            (JsNum.round (JsNum.div
              (JsNum.mul ratio
                (JsNum.sub (JsNum.finite s.props.maximumValue)
                  (JsNum.finite s.props.minimumValue)))
              (JsNum.finite s.props.step)))
            (JsNum.finite s.props.step))))
  else
    JsNum.max (JsNum.finite s.props.minimumValue)
      (JsNum.min (JsNum.finite s.props.maximumValue)
        (JsNum.add
          (JsNum.mul ratio
            (JsNum.sub (JsNum.finite s.props.maximumValue)
              (JsNum.finite s.props.minimumValue)))
          (JsNum.finite s.props.minimumValue)))

/-- `enum EventEnum` (src lines 195-199). -/
inductive EventEnum where
  | onSlidingStart
  | onValueChange
  | onSlidingComplete
deriving DecidableEq

/-- `_setCurrentValue` (src lines 636-639): `state.value.setValue(value)`. The
`Animated.Value` listener registered in the constructor fires synchronously on
`setValue`, updating `this.currentValue`. -/
def _setCurrentValue (s : SliderModel) (value : ℚ) : SliderModel :=
  { s with animatedValue := value, currentValue := value }

/-- `_fireChangeEvent` (src lines 655-660) reads `_getCurrentValue()` and
passes it to the prop callback when present; the returned pair records the
call that would be made. -/
def _fireChangeEvent (s : SliderModel) (event : EventEnum) : EventEnum × ℚ :=
  (event, _getCurrentValue s)

/-- `_handlePanResponderGrant` (src lines 526-529): anchor `_previousLeft` at
the thumb offset of the current value and fire `onSlidingStart`. -/
def _handlePanResponderGrant (s : SliderModel) :
    SliderModel × List (EventEnum × ℚ) :=
  let s' := { s with previousLeft := _getThumbLeft s (_getCurrentValue s) }
  (s', [_fireChangeEvent s' EventEnum.onSlidingStart])

/-- `_handlePanResponderMove` (src lines 531-538): short-circuit when
`disabled`, else write `_getValue(gestureState)` and fire `onValueChange`. -/
def _handlePanResponderMove (s : SliderModel) (dx : ℚ) :
    SliderModel × List (EventEnum × ℚ) :=
  if s.props.disabled then (s, [])
  else
    let s' := _setCurrentValue s (_getValue s dx)
    (s', [_fireChangeEvent s' EventEnum.onValueChange])

/-- `_handlePanResponderRequestEnd` (src lines 540-543): never cede the pan. -/
def _handlePanResponderRequestEnd : Bool := false

/-- `_handlePanResponderEnd` (src lines 545-552), also used for terminate:
short-circuit when `disabled`, else write the value and fire
`onSlidingComplete`. -/
def _handlePanResponderEnd (s : SliderModel) (dx : ℚ) :
    SliderModel × List (EventEnum × ℚ) :=
  if s.props.disabled then (s, [])
  else
    let s' := _setCurrentValue s (_getValue s dx)
    (s', [_fireChangeEvent s' EventEnum.onSlidingComplete])

/-- `enum SizeEnum` (src lines 189-193): which private size field a
measurement targets. -/
inductive SizeEnum where
  | _containerSize
  | _trackSize
  | _thumbSize
deriving DecidableEq

/-- `this[storeName]` read (src line 570). -/
def readStore (s : SliderModel) (storeName : SizeEnum) : Option Size :=
  match storeName with
  | SizeEnum._containerSize => s.containerSizeF
  | SizeEnum._trackSize => s.trackSizeF
  | SizeEnum._thumbSize => s.thumbSizeF

/-- `this[storeName] = size` write (src line 578). -/
def writeStore (s : SliderModel) (storeName : SizeEnum) (size : Size) :
    SliderModel :=
  match storeName with
  | SizeEnum._containerSize => { s with containerSizeF := some size }
  | SizeEnum._trackSize => { s with trackSizeF := some size }
  | SizeEnum._thumbSize => { s with thumbSizeF := some size }

/-- `_handleMeasure` (src lines 566-588). Returns the updated component and
whether `setState` was called. The early return fires when the stored size for
the region exists and both dimensions are unchanged. The `setState` guard
`this._containerSize && this._trackSize && this._thumbSize` is JS truthiness
of the three field values: any stored `Size` object — zero-sized or not — is
truthy, so the guard is exactly "all three fields have been assigned". -/
def _handleMeasure (s : SliderModel) (storeName : SizeEnum)
    (width height : ℚ) : SliderModel × Bool :=
  let size : Size := { width := width, height := height }
  let skip : Bool := match readStore s storeName with
    | some currentSize =>
        decide (width = currentSize.width) && decide (height = currentSize.height)
    | none => false
  if skip then (s, false)
  else
    let s' := writeStore s storeName size
    match s'.containerSizeF, s'.trackSizeF, s'.thumbSizeF with
    | some c, some t, some th =>
        ({ s' with state := { containerSize := c, trackSize := t,
                              thumbSize := th, allMeasured := true } }, true)
    | _, _, _ => (s', false)

/-- `_getTouchOverflowSize` (src lines 662-682). `props.thumbTouchSize` is an
always-truthy object (it has a default), so the guard reduces to
`allMeasured === true`. -/
def _getTouchOverflowSize (s : SliderModel) : Size :=
  if s.state.allMeasured then
    { width := max 0 (s.props.thumbTouchSize.width - s.state.thumbSize.width)
      height := max 0
        (s.props.thumbTouchSize.height - s.state.containerSize.height) }
  else { width := 0, height := 0 }

/-- `_getThumbTouchRect` (src lines 715-729): the enlarged hit rect centered
on the thumb at the current value. -/
def _getThumbTouchRect (s : SliderModel) : Rect :=
  let touchOverflowSize := _getTouchOverflowSize s
  { x := touchOverflowSize.width / 2 + _getThumbLeft s (_getCurrentValue s) +
      (s.state.thumbSize.width - s.props.thumbTouchSize.width) / 2
    y := touchOverflowSize.height / 2 +
      (s.state.containerSize.height - s.props.thumbTouchSize.height) / 2
    width := s.props.thumbTouchSize.width
    height := s.props.thumbTouchSize.height }

/-- `_thumbHitTest` (src lines 706-713): containment of the touch location in
the enlarged thumb touch rect. -/
def _thumbHitTest (s : SliderModel) (locationX locationY : ℚ) : Bool :=
  (_getThumbTouchRect s).containsPoint locationX locationY

/-- `_handleStartShouldSetPanResponder` (src lines 515-519): become the
responder exactly when the start touch hits the thumb touch rect. -/
def _handleStartShouldSetPanResponder (s : SliderModel)
    (locationX locationY : ℚ) : Bool :=
  _thumbHitTest s locationX locationY

/-- `_handleMoveShouldSetPanResponder` (src lines 521-524): never become the
responder from a move. -/
def _handleMoveShouldSetPanResponder : Bool := false

/-- Gesture lifecycle phase of the PanResponder arbitration (spec §4.3). -/
inductive GesturePhase where
  | idle
  | dragging
deriving DecidableEq

/-- Component plus responder phase and the outward event log. -/
structure Controller where
  slider : SliderModel
  phase : GesturePhase
  events : List (EventEnum × ℚ)

/-- Modelled from the spec: the external PanResponder dispatch (react-native,
not part of this repository) delivers a start touch by consulting
`onStartShouldSetPanResponder` and, only when it returns `true`, grants the
gesture via `onPanResponderGrant` (spec §4.3: a hit test decides whether an
incoming press transitions Idle → Dragging; the component wires these handlers
at src lines 366-374). -/
def onStartTouch (c : Controller) (locationX locationY : ℚ) : Controller :=
  if _handleStartShouldSetPanResponder c.slider locationX locationY then
    let granted := _handlePanResponderGrant c.slider
    { slider := granted.1, phase := GesturePhase.dragging,
      events := c.events ++ granted.2 }
  else c

/-- A concrete slider for witnesses: range `[0,1]`, step `0`, container width
`300`, thumb width `20` (track length `280`), not RTL. -/
def sample : SliderModel :=
  { props := { value := 0, disabled := false, minimumValue := 0,
               maximumValue := 1, step := 0, thumbTouchSize := ⟨40, 40⟩ }
    state := { containerSize := ⟨300, 40⟩, trackSize := ⟨300, 4⟩,
               thumbSize := ⟨20, 20⟩, allMeasured := true }
    previousLeft := 0
    containerSizeF := some ⟨300, 40⟩
    trackSizeF := some ⟨300, 4⟩
    thumbSizeF := some ⟨20, 20⟩
    currentValue := 0
    animatedValue := 0
    isRTL := false }

end Slider

namespace Slider

/-- C1 helper: the clamp used by both branches of `_getValue`. -/
theorem clamp_mem (m M x : ℚ) (h : m ≤ M) :
    m ≤ max m (min M x) ∧ max m (min M x) ≤ M :=
  ⟨le_max_left _ _, max_le h (min_le_left _ _)⟩

/-- Bridge between the two embeddings of `_getValue`: whenever the track
length `containerSize.width - thumbSize.width` is nonzero, every intermediate
of the JS computation is finite, and the `JsNum` evaluation returns exactly
the finite rational computed by the ℚ embedding. -/
theorem getValueJs_eq_finite (s : SliderModel) (dx : ℚ)
    (hL : s.state.containerSize.width - s.state.thumbSize.width ≠ 0) :
    _getValueJs s dx = JsNum.finite (_getValue s dx) := by
  by_cases hstep : s.props.step = 0 <;> cases hR : s.isRTL <;>
    simp [_getValueJs, _getValue, hstep, hR, hL, JsNum.add, JsNum.sub,
      JsNum.div, JsNum.mul, JsNum.min, JsNum.max, JsNum.round]

/-- **C1, counterexample.** On the freshly constructed component — a reachable
state: no layout measurement has arrived, so both stored widths are `0` and
the track length is `0` — a move with `dx = 0` makes the source compute
`0 / 0`. The JS result is `NaN` (`Math.max(min, Math.min(max, NaN)) = NaN`),
which is not a number in `[0, 1]`, even though `minimumValue ≤ maximumValue`
holds. -/
theorem getValue_mem_range_cex :
    (construct sample.props false).props.minimumValue ≤
        (construct sample.props false).props.maximumValue ∧
      (construct sample.props false).state.containerSize.width -
        (construct sample.props false).state.thumbSize.width = 0 ∧
      _getValueJs (construct sample.props false) 0 = JsNum.nan := by
  refine ⟨by norm_num [construct, sample, jsOr], by norm_num [construct, sample],
    by norm_num [_getValueJs, construct, sample, jsOr, JsNum.add, JsNum.sub,
      JsNum.div, JsNum.mul, JsNum.min, JsNum.max, JsNum.round]⟩

/-- **C1, amended.** For every cumulative drag delta `dx` (and any anchor
`_previousLeft`, any RTL setting, either `step` branch), provided
`minimumValue ≤ maximumValue` and the track length is nonzero, the JS
computation stays finite — `_getValueJs` returns exactly the rational
`_getValue` — and that value lies in `[minimumValue, maximumValue]`
inclusive. At zero track length the division is reached and an anchored
offset of `0` yields `0 / 0 = NaN`, so the in-range property needs the
nonzero-length proviso. -/
theorem getValue_mem_range (s : SliderModel) (dx : ℚ)
    (h : s.props.minimumValue ≤ s.props.maximumValue)
    (hL : s.state.containerSize.width - s.state.thumbSize.width ≠ 0) :
    _getValueJs s dx = JsNum.finite (_getValue s dx) ∧
      s.props.minimumValue ≤ _getValue s dx ∧
      _getValue s dx ≤ s.props.maximumValue := by
  refine ⟨getValueJs_eq_finite s dx hL, ?_⟩
  simp only [_getValue]
  split
  · exact clamp_mem _ _ _ h
  · exact clamp_mem _ _ _ h

/-- Witness for C1 at `sample` (track length `280`) with a huge drag
`dx = 100000`. -/
theorem getValue_mem_range_witness :
    _getValueJs sample 100000 = JsNum.finite (_getValue sample 100000) ∧
      sample.props.minimumValue ≤ _getValue sample 100000 ∧
      _getValue sample 100000 ≤ sample.props.maximumValue :=
  getValue_mem_range sample 100000 (by norm_num [sample]) (by norm_num [sample])

/-- `sample` with range `[0,10]` and step `3` (a step that does not divide the
span `10`). -/
def stepSample : SliderModel :=
  { sample with
      props := { sample.props with maximumValue := 10, step := 3 } }

/-- **C2, counterexample.** `stepSample` has step `3 > 0`; the drag `dx = 560`
(raw ratio `2`) rounds to step count `7`, giving `21`, which is clamped to
`maximumValue = 10` — and `10 - 0` is not an integer multiple of `3`. So a
produced value need not satisfy `(value - minimumValue) mod step == 0`. -/
theorem getValue_step_multiple_cex :
    (0 : ℚ) < stepSample.props.step ∧
      _getValue stepSample 560 = 10 ∧
      ¬ ∃ k : ℤ, _getValue stepSample 560 - stepSample.props.minimumValue =
        k * stepSample.props.step := by
  have hval : _getValue stepSample 560 = 10 := by
    norm_num [_getValue, stepSample, sample, jsRound, max_def, min_def]
  refine ⟨by norm_num [stepSample, sample], hval, ?_⟩
  rintro ⟨k, hk⟩
  rw [hval] at hk
  norm_num [stepSample, sample] at hk
  have h10 : (10 : ℤ) = k * 3 := by exact_mod_cast hk
  omega

/-- **C2, amended.** Whenever `step ≠ 0` and the track length is nonzero (at
zero track length the JS division yields NaN, see `getValue_mem_range_cex`),
the JS computation stays finite and every value produced by `_getValue` is
either `maximumValue` (reached when the rounded step count is clamped from
above) or of the form `minimumValue + k * step` for an integer `k`; the
multiple-of-step property itself can fail on the value clamped to
`maximumValue` when `maximumValue - minimumValue` is not a multiple of
`step`. -/
theorem getValue_step_multiple_or_max (s : SliderModel) (dx : ℚ)
    (hstep : s.props.step ≠ 0)
    (hL : s.state.containerSize.width - s.state.thumbSize.width ≠ 0) :
    _getValueJs s dx = JsNum.finite (_getValue s dx) ∧
      (_getValue s dx = s.props.maximumValue ∨
        ∃ k : ℤ, _getValue s dx - s.props.minimumValue =
          k * s.props.step) := by
  refine ⟨getValueJs_eq_finite s dx hL, ?_⟩
  simp only [_getValue, if_pos hstep]
  rcases max_cases s.props.minimumValue
      (min s.props.maximumValue
        (s.props.minimumValue +
          (jsRound ((if s.isRTL then
              1 - (s.previousLeft + dx) /
                (s.state.containerSize.width - s.state.thumbSize.width)
            else
              (s.previousLeft + dx) /
                (s.state.containerSize.width - s.state.thumbSize.width)) *
            (s.props.maximumValue - s.props.minimumValue) / s.props.step) : ℚ)
            * s.props.step)) with ⟨h1, _⟩ | ⟨h1, _⟩
  · rw [h1]
    exact Or.inr ⟨0, by ring⟩
  · rw [h1]
    rcases min_cases s.props.maximumValue
        (s.props.minimumValue +
          (jsRound ((if s.isRTL then
              1 - (s.previousLeft + dx) /
                (s.state.containerSize.width - s.state.thumbSize.width)
            else
              (s.previousLeft + dx) /
                (s.state.containerSize.width - s.state.thumbSize.width)) *
            (s.props.maximumValue - s.props.minimumValue) / s.props.step) : ℚ)
            * s.props.step) with ⟨h2, _⟩ | ⟨h2, _⟩
    · rw [h2]
      exact Or.inl rfl
    · rw [h2]
      exact Or.inr ⟨_, by ring⟩

/-- Witness for the amended C2 at `stepSample` (track length `280`),
`dx = 560`. -/
theorem getValue_step_multiple_or_max_witness :
    _getValueJs stepSample 560 = JsNum.finite (_getValue stepSample 560) ∧
      (_getValue stepSample 560 = stepSample.props.maximumValue ∨
        ∃ k : ℤ, _getValue stepSample 560 - stepSample.props.minimumValue =
          k * stepSample.props.step) :=
  getValue_step_multiple_or_max stepSample 560
    (by norm_num [stepSample, sample]) (by norm_num [stepSample, sample])

/-- A degenerate-geometry slider for C4: container width `10`, thumb width
`20`, so the track length is `-10 < 0`; range `[0,1]`, step `0`, anchored at
`_previousLeft = -10`. -/
def negLenSample : SliderModel :=
  { sample with
      state := { sample.state with containerSize := ⟨10, 40⟩ }
      previousLeft := -10 }

/-- **C4, counterexample.** `negLenSample` has track length
`containerSize.width - thumbSize.width = -10 < 0`, yet `_getValue` at `dx = 0`
divides anyway (ratio `(-10)/(-10) = 1`) and returns `maximumValue = 1`, not
the claimed safe default `minimumValue`: no non-positive-length special case
exists in the code. -/
theorem getValue_no_guard_cex :
    negLenSample.state.containerSize.width -
        negLenSample.state.thumbSize.width < 0 ∧
      _getValue negLenSample 0 = negLenSample.props.maximumValue ∧
      _getValue negLenSample 0 ≠ negLenSample.props.minimumValue := by
  have hval : _getValue negLenSample 0 = 1 := by
    norm_num [_getValue, negLenSample, sample, max_def, min_def]
  exact ⟨by norm_num [negLenSample, sample],
    by rw [hval]; norm_num [negLenSample, sample],
    by rw [hval]; norm_num [negLenSample, sample]⟩

/-- **C4, amended.** The code never special-cases `maximumValue ==
minimumValue` or a non-positive track length: `_getRatio` and `_getValue`
divide unconditionally. In particular, whenever the track length is negative
and the anchored offset `_previousLeft + dx` equals that length (step `0`,
non-RTL, non-degenerate range), `_getValue` returns `maximumValue` — the
result is not pinned to `minimumValue` as a ratio-0 short-circuit would
require. -/
theorem getValue_no_guard (s : SliderModel) (dx : ℚ)
    (hstep : s.props.step = 0) (hrtl : s.isRTL = false)
    (hm : s.props.minimumValue < s.props.maximumValue)
    (hL : s.state.containerSize.width - s.state.thumbSize.width < 0)
    (hanchor : s.previousLeft + dx =
      s.state.containerSize.width - s.state.thumbSize.width) :
    _getValue s dx = s.props.maximumValue := by
  have hL0 : s.state.containerSize.width - s.state.thumbSize.width ≠ 0 :=
    ne_of_lt hL
  simp only [_getValue, hrtl, hstep, hanchor, div_self hL0, if_false,
    ne_eq, not_true_eq_false, Bool.false_eq_true]
  rw [one_mul, sub_add_cancel, min_self, max_eq_right hm.le]

/-- Witness for the amended C4 at `negLenSample`, `dx = 0`. -/
theorem getValue_no_guard_witness :
    _getValue negLenSample 0 = negLenSample.props.maximumValue :=
  getValue_no_guard negLenSample 0 (by norm_num [negLenSample, sample])
    (by norm_num [negLenSample, sample]) (by norm_num [negLenSample, sample])
    (by norm_num [negLenSample, sample]) (by norm_num [negLenSample, sample])

/-- C3 helper: clamping to `[m, M]` a point within `step/2` of a point `v`
that already lies in `[m, M]` stays within `step` of `v`. -/
theorem abs_clamp_sub_le (m M v X step : ℚ) ( _hm : m ≤ M) (hv1 : m ≤ v)
    (hv2 : v ≤ M) (hs : 0 < step) (hX1 : v - step / 2 < X)
    (hX2 : X ≤ v + step / 2) : |max m (min M X) - v| ≤ step := by
  rw [abs_le]
  rcases le_total m (min M X) with hmx | hmx
  · rw [max_eq_right hmx]
    rcases le_total M X with hMX | hMX
    · rw [min_eq_left hMX]
      constructor <;> linarith
    · rw [min_eq_right hMX]
      constructor <;> linarith
  · rw [max_eq_left hmx]
    rcases le_total M X with hMX | hMX
    · rw [min_eq_left hMX] at hmx
      constructor <;> linarith
    · rw [min_eq_right hMX] at hmx
      constructor <;> linarith

/-- C3 helper: when the gesture is anchored at `_previousLeft + dx =
_getThumbLeft s v` and the track length is nonzero, the mirrored ratio inside
`_getValue` collapses back to `_getRatio s v` (the RTL mirror applied twice
cancels), in both axis directions. -/
theorem anchored_ratio_eq (s : SliderModel) (v dx : ℚ)
    (hL0 : s.state.containerSize.width - s.state.thumbSize.width ≠ 0)
    (hanchor : s.previousLeft + dx = _getThumbLeft s v) :
    (if s.isRTL then
        1 - (s.previousLeft + dx) /
          (s.state.containerSize.width - s.state.thumbSize.width)
      else
        (s.previousLeft + dx) /
          (s.state.containerSize.width - s.state.thumbSize.width)) =
      _getRatio s v := by
  rw [hanchor]
  simp only [_getThumbLeft]
  cases hR : s.isRTL
  · simp only [Bool.false_eq_true, if_false, mul_div_cancel_right₀ _ hL0]
  · simp only [if_true, mul_div_cancel_right₀ _ hL0]
    ring

/-- **C3.** Round trip value → offset → value: with `minimumValue <
maximumValue`, positive track length, `v` in range and the gesture anchored so
that `_previousLeft + dx = _getThumbLeft s v`, `_getValue` returns exactly `v`
when `step = 0`, and a value within one quantization step of `v` when
`step > 0` — for either RTL setting. -/
theorem getThumbLeft_getValue_roundtrip (s : SliderModel) (v dx : ℚ)
    (hm : s.props.minimumValue < s.props.maximumValue)
    (hL : 0 < s.state.containerSize.width - s.state.thumbSize.width)
    (hv1 : s.props.minimumValue ≤ v) (hv2 : v ≤ s.props.maximumValue)
    (hanchor : s.previousLeft + dx = _getThumbLeft s v) :
    (s.props.step = 0 → _getValue s dx = v) ∧
      (0 < s.props.step → |_getValue s dx - v| ≤ s.props.step) := by
  have hL0 : s.state.containerSize.width - s.state.thumbSize.width ≠ 0 :=
    ne_of_gt hL
  have hMm : s.props.maximumValue - s.props.minimumValue ≠ 0 :=
    sub_ne_zero.mpr hm.ne'
  have hratio := anchored_ratio_eq s v dx hL0 hanchor
  have hrm : _getRatio s v * (s.props.maximumValue - s.props.minimumValue) =
      v - s.props.minimumValue := by
    simp only [_getRatio]
    exact div_mul_cancel₀ _ hMm
  constructor
  · intro h0
    simp only [_getValue, hratio, hrm, h0]
    rw [if_neg (by simp), sub_add_cancel, min_eq_right hv2, max_eq_right hv1]
  · intro hs
    have hs0 : s.props.step ≠ 0 := ne_of_gt hs
    simp only [_getValue, hratio, hrm, if_pos hs0]
    set t := (v - s.props.minimumValue) / s.props.step with ht
    have h1 : (jsRound t : ℚ) ≤ t + 1 / 2 := by
      simpa [jsRound] using Int.floor_le (t + 1 / 2)
    have h2 : t - 1 / 2 < (jsRound t : ℚ) := by
      have hf := Int.sub_one_lt_floor (t + 1 / 2)
      simp only [jsRound]
      linarith
    have htstep : t * s.props.step = v - s.props.minimumValue :=
      div_mul_cancel₀ _ hs0
    have hX1 : v - s.props.step / 2 <
        s.props.minimumValue + (jsRound t : ℚ) * s.props.step := by
      have hmul : (t - 1 / 2) * s.props.step < (jsRound t : ℚ) * s.props.step :=
        mul_lt_mul_of_pos_right h2 hs
      rw [sub_mul, htstep] at hmul
      linarith
    have hX2 : s.props.minimumValue + (jsRound t : ℚ) * s.props.step ≤
        v + s.props.step / 2 := by
      have hmul : (jsRound t : ℚ) * s.props.step ≤ (t + 1 / 2) * s.props.step :=
        mul_le_mul_of_nonneg_right h1 hs.le
      rw [add_mul, htstep] at hmul
      linarith
    exact abs_clamp_sub_le _ _ _ _ _ hm.le hv1 hv2 hs hX1 hX2

/-- Witness for C3 at `stepSample` (range `[0,10]`, step `3`, track length
`280`), `v = 4`, anchored at offset `112 = _getThumbLeft stepSample 4`. -/
theorem getThumbLeft_getValue_roundtrip_witness :
    (stepSample.props.step = 0 → _getValue stepSample 112 = 4) ∧
      (0 < stepSample.props.step →
        |_getValue stepSample 112 - 4| ≤ stepSample.props.step) :=
  getThumbLeft_getValue_roundtrip stepSample 4 112
    (by norm_num [stepSample, sample]) (by norm_num [stepSample, sample])
    (by norm_num [stepSample, sample]) (by norm_num [stepSample, sample])
    (by norm_num [_getThumbLeft, _getRatio, stepSample, sample])

/-- **C5.** With range `[0,1]` and `step = 0`, when the raw ratio
`(previousLeft + dx) / trackLength` equals `r ∈ [0,1]`, RTL mirrors it:
`_getValue` returns `1 - r` with RTL enabled and `r` with RTL disabled (so a
raw ratio of `0.3` yields `0.7` under RTL). -/
theorem getValue_rtl_mirror (s : SliderModel) (dx r : ℚ)
    (hmin : s.props.minimumValue = 0) (hmax : s.props.maximumValue = 1)
    (hstep : s.props.step = 0)
    (hraw : (s.previousLeft + dx) /
      (s.state.containerSize.width - s.state.thumbSize.width) = r)
    (hr0 : 0 ≤ r) (hr1 : r ≤ 1) :
    (s.isRTL = true → _getValue s dx = 1 - r) ∧
      (s.isRTL = false → _getValue s dx = r) := by
  constructor <;> intro hR <;>
    simp only [_getValue, hmin, hmax, hstep, hraw, hR, if_true, if_false,
      Bool.false_eq_true] <;>
    rw [if_neg (by simp)]
  · rw [sub_zero, mul_one, add_zero, min_eq_right (by linarith),
      max_eq_right (by linarith)]
  · rw [sub_zero, mul_one, add_zero, min_eq_right hr1, max_eq_right hr0]

/-- `sample` anchored at `_previousLeft = 84` (raw ratio `84/280 = 0.3`) with
RTL enabled. -/
def rtlSample : SliderModel :=
  { sample with previousLeft := 84, isRTL := true }

/-- Witness for C5: at `rtlSample`, `dx = 0`, raw ratio `3/10`, the value is
`7/10`. -/
theorem getValue_rtl_mirror_witness :
    (rtlSample.isRTL = true → _getValue rtlSample 0 = 1 - 3 / 10) ∧
      (rtlSample.isRTL = false → _getValue rtlSample 0 = 3 / 10) :=
  getValue_rtl_mirror rtlSample 0 (3 / 10)
    (by norm_num [rtlSample, sample]) (by norm_num [rtlSample, sample])
    (by norm_num [rtlSample, sample]) (by norm_num [rtlSample, sample])
    (by norm_num) (by norm_num)

/-- **C6.** A gesture is granted only by a start touch inside the enlarged
thumb touch rect: the start-should-set handler returns exactly the inclusive
containment test on the touch rect, the move-should-set handler is constantly
`false`, and a start touch that misses the touch rect leaves the controller
unchanged — still Idle, no `onSlidingStart` appended. -/
theorem gesture_grant_only_on_thumb_hit :
    (∀ (s : SliderModel) (x y : ℚ),
      _handleStartShouldSetPanResponder s x y =
        (_getThumbTouchRect s).containsPoint x y) ∧
      _handleMoveShouldSetPanResponder = false ∧
      (∀ (c : Controller) (x y : ℚ), c.phase = GesturePhase.idle →
        _thumbHitTest c.slider x y = false → onStartTouch c x y = c) := by
  refine ⟨fun s x y => rfl, rfl, fun c x y hphase hmiss => ?_⟩
  simp [onStartTouch, _handleStartShouldSetPanResponder, hmiss]

/-- An idle controller over `sample`. -/
def idleSample : Controller :=
  { slider := sample, phase := GesturePhase.idle, events := [] }

/-- Witness for C6: a start touch at `(1000, 1000)` — far outside `sample`'s
touch rect, which is `⟨0, 0, 40, 40⟩` — changes nothing. -/
theorem gesture_grant_only_on_thumb_hit_witness :
    onStartTouch idleSample 1000 1000 = idleSample :=
  gesture_grant_only_on_thumb_hit.2.2 idleSample 1000 1000 rfl
    (by norm_num [_thumbHitTest, _getThumbTouchRect, _getTouchOverflowSize,
      _getThumbLeft, _getRatio, _getCurrentValue, idleSample, sample,
      Rect.containsPoint, max_def])

/-- **C7.** When `disabled` is true at the time a move or end/terminate event
arrives, `_handlePanResponderMove` and `_handlePanResponderEnd` return the
component unchanged (no value write, `_previousLeft` untouched) and fire no
event. -/
theorem disabled_move_end_noop (s : SliderModel) (dx : ℚ)
    (hdis : s.props.disabled = true) :
    _handlePanResponderMove s dx = (s, []) ∧
      _handlePanResponderEnd s dx = (s, []) := by
  constructor <;> simp [_handlePanResponderMove, _handlePanResponderEnd, hdis]

/-- `sample` with the `disabled` prop set. -/
def disabledSample : SliderModel :=
  { sample with props := { sample.props with disabled := true } }

/-- Witness for C7 at `disabledSample` with `dx = 50`. -/
theorem disabled_move_end_noop_witness :
    _handlePanResponderMove disabledSample 50 = (disabledSample, []) ∧
      _handlePanResponderEnd disabledSample 50 = (disabledSample, []) :=
  disabled_move_end_noop disabledSample 50 rfl

/-- **C8, counterexample.** Measuring all three regions at size `0 × 0`
starting from the constructed component sets `allMeasured = true` even though
every stored size is zero: the readiness guard (src line 580) is JS truthiness
of the three stored `Size` objects, which zero-size objects satisfy. -/
theorem allMeasured_zero_sizes_cex :
    (((_handleMeasure
        ((_handleMeasure
          ((_handleMeasure (construct sample.props false)
            SizeEnum._containerSize 0 0).1)
          SizeEnum._trackSize 0 0).1)
        SizeEnum._thumbSize 0 0).1).state.allMeasured = true) ∧
      ((_handleMeasure
        ((_handleMeasure
          ((_handleMeasure (construct sample.props false)
            SizeEnum._containerSize 0 0).1)
          SizeEnum._trackSize 0 0).1)
        SizeEnum._thumbSize 0 0).1).state.containerSize = ⟨0, 0⟩ := by
  exact ⟨rfl, rfl⟩

/-- **C8, amended.** `allMeasured` transitions to true exactly when all three
regions have been measured at least once — with any dimensions whatsoever,
zero-size included; the code never checks that the measured dimensions are
nonzero. -/
theorem allMeasured_after_three_measurements (props : SliderProps)
    (isRTL : Bool) (w1 h1 w2 h2 w3 h3 : ℚ) :
    ((_handleMeasure
      ((_handleMeasure
        ((_handleMeasure (construct props isRTL)
          SizeEnum._containerSize w1 h1).1)
        SizeEnum._trackSize w2 h2).1)
      SizeEnum._thumbSize w3 h3).1).state.allMeasured = true := rfl

/-- **C9.** A measurement whose width and height both equal the stored
dimensions for that region is a no-op: the component is returned unchanged
(all stored sizes and `allMeasured` included) and `setState` is not called. -/
theorem measure_idempotent (s : SliderModel) (storeName : SizeEnum) (w h : ℚ)
    (hstored : readStore s storeName = some ⟨w, h⟩) :
    _handleMeasure s storeName w h = (s, false) := by
  simp [_handleMeasure, hstored]

/-- Witness for C9: after `measure(thumb, 20, 20)` on the constructed
component, a second identical `measure(thumb, 20, 20)` returns the component
unchanged with no state update. -/
theorem measure_idempotent_witness :
    _handleMeasure
      ((_handleMeasure (construct sample.props false)
        SizeEnum._thumbSize 20 20).1) SizeEnum._thumbSize 20 20 =
      ((_handleMeasure (construct sample.props false)
        SizeEnum._thumbSize 20 20).1, false) :=
  measure_idempotent _ SizeEnum._thumbSize 20 20 rfl

/-- **C10.** Until the first listener notification, `currentValue` is `0`
regardless of the configured initial `value` prop: `_getCurrentValue` on the
freshly constructed component returns `0`, so a gesture granted at that point
anchors `_previousLeft` at the thumb offset of value `0` and fires
`onSlidingStart` with `0`. -/
theorem initial_currentValue_zero (props : SliderProps) (isRTL : Bool) :
    _getCurrentValue (construct props isRTL) = 0 ∧
      (_handlePanResponderGrant (construct props isRTL)).1.previousLeft =
        _getThumbLeft (construct props isRTL) 0 ∧
      (_handlePanResponderGrant (construct props isRTL)).2 =
        [(EventEnum.onSlidingStart, 0)] :=
  ⟨rfl, rfl, rfl⟩

end Slider
